import Mathlib

/-!
Verification of the dive-output parsing and progress-orchestration logic of the
docker-dive-web-ui backend (the spec's "core": `utils/dive.js`, `utils/docker.js`
and the `/api/inspect` route), as a shallow embedding in Lean.

Modelling conventions:
* JavaScript numbers are modelled as `ℚ` (exact rationals); `NaN`/`Infinity`
  edge cases are outside the model.
* A resolved/rejected promise is an `Except JsError α`.
* `JSON.parse` is modelled by an executable recursive-descent parser `jsonParse`
  over a `Json` value type.  `undefined` and `null` are merged into `Json.null`
  (both are falsy and both trigger `||` defaults); strict-equality distinctions
  between them are not needed by any modelled function.
* Wall-clock values (`new Date().toISOString()`, `startTime`, …) are omitted
  from the modelled records; no claim concerns them.
-/

/-- A JavaScript `Error`, reduced to its message (the only part the code reads). -/
structure JsError where
  message : String
deriving Repr, DecidableEq

/-- JSON values, as produced by `JSON.parse`.  Object fields are kept in
insertion order; duplicate keys are resolved by `lookupLast` (later wins),
matching `JSON.parse`. -/
inductive Json where
  | null
  | bool (b : Bool)
  | num (q : ℚ)
  | str (s : String)
  | arr (elems : List Json)
  | obj (fields : List (String × Json))

/-- JavaScript truthiness of a JSON value (`undefined`/`null` are both `Json.null`). -/
def Json.truthy : Json → Bool
  | .null => false
  | .bool b => b
  | .num q => if q = 0 then false else true
  | .str s => if s = "" then false else true
  | .arr _ => true
  | .obj _ => true

/-- Last binding of a key in an object's field list (later duplicate keys win,
as in `JSON.parse`). -/
def lookupLast (k : String) : List (String × Json) → Option Json
  | [] => none
  | (k₂, v) :: rest =>
    match lookupLast k rest with
    | some v₂ => some v₂
    | none => if k₂ = k then some v else none

/-- JavaScript property read `j[k]` on a parsed JSON value: a missing field or a
read on a non-object yields `undefined` (merged with `null` here).  The `TypeError`
thrown by a read on `null` itself is outside the model. -/
def Json.getF (j : Json) (k : String) : Json :=
  match j with
  | .obj kvs => (lookupLast k kvs).getD .null
  | _ => .null

/-- JavaScript `a || b`. -/
def jsOr (a b : Json) : Json := if a.truthy then a else b

/-- Numeric value of a field that the code uses as `x || 0` or feeds to
arithmetic: a number yields itself, anything else yields 0 (absent fields are
`Json.null`; non-numeric values in numeric fields are outside the model). -/
def numOrZero : Json → ℚ
  | .num q => q
  | _ => 0

/-- JavaScript `x || d` where a string is expected: a truthy value yields its
string content, anything falsy yields the default (non-string truthy values in
string fields are outside the model). -/
def strOrD (j : Json) (d : String) : String :=
  if j.truthy then
    match j with
    | .str s => s
    | _ => d
  else d

/-- JavaScript `x || d` for numbers (`0` is falsy and falls back to `d`). -/
def numOrD (j : Json) (d : ℚ) : ℚ :=
  if j.truthy then numOrZero j else d

/-- `Array.prototype.length`-ish: length of an array or string value, else 0
(the code only reads `.length` of `fileList`, an array in dive's output). -/
def jsLen : Json → ℚ
  | .arr xs => xs.length
  | .str s => s.length
  | _ => 0

/-- JavaScript whitespace as used by `String.prototype.trim` and ignored by
`JSON.parse`, restricted to the ASCII set that can occur in the modelled text. -/
def jsWsChar (c : Char) : Bool :=
  c == ' ' || c == '\t' || c == '\n' || c == '\r'

/-- Drop leading whitespace. -/
def skipWs : List Char → List Char
  | [] => []
  | c :: cs => if jsWsChar c then skipWs cs else c :: cs

/-- `String.prototype.trim`. -/
def jsTrim (s : String) : String :=
  ⟨((s.data.dropWhile (jsWsChar ·)).reverse.dropWhile (jsWsChar ·)).reverse⟩

/-- `s.startsWith('{')`. -/
def strStartsWithBrace (s : String) : Bool :=
  match s.data with
  | c :: _ => c == '{'
  | [] => false

/-- `Math.round`: nearest integer, halves toward +∞. -/
def jsRound (q : ℚ) : ℚ := (⌊q + 1/2⌋ : ℤ)

/-- `Math.min`. -/
def jsMin (a b : ℚ) : ℚ := min a b

/-- `hay.includes(pat)` on the underlying character lists. -/
def isPrefixList : List Char → List Char → Bool
  | [], _ => true
  | _ :: _, [] => false
  | a :: as₁, b :: bs => a == b && isPrefixList as₁ bs

/-- Substring search used to model `String.prototype.includes`. -/
def listIncludes : List Char → List Char → Bool
  | hay, pat =>
    match hay with
    | [] => isPrefixList pat []
    | _ :: t => isPrefixList pat hay || listIncludes t pat

/-- `m.includes(pat)`. -/
def strIncludes (m pat : String) : Bool := listIncludes m.data pat.data

/-- Decimal digit test (code points 48-57). -/
def isDigitChar (c : Char) : Bool := 47 < c.toNat && c.toNat < 58

/-- Hex digit value, if any (0-9, a-f, A-F by code point). -/
def hexVal (c : Char) : Option Nat :=
  let n := c.toNat
  if isDigitChar c then some (n - 48)
  else if 96 < n && n < 103 then some (n - 87)
  else if 64 < n && n < 71 then some (n - 55)
  else none

/-- Value of a digit run. -/
def digitsToNat (ds : List Char) : Nat :=
  ds.foldl (fun n c => n * 10 + (c.toNat - '0'.toNat)) 0

/-- Simple JSON string escapes. -/
def escSimple (c : Char) : Option Char :=
  if c = '"' then some '"'
  else if c = '\\' then some '\\'
  else if c = '/' then some '/'
  else if c = 'b' then some '\x08'
  else if c = 'f' then some '\x0C'
  else if c = 'n' then some '\n'
  else if c = 'r' then some '\r'
  else if c = 't' then some '\t'
  else none

/-- Body of a JSON string after the opening quote: returns content and the
input after the closing quote. -/
def parseStringChars : List Char → Option (List Char × List Char)
  | [] => none
  | '"' :: rest => some ([], rest)
  | '\\' :: e :: rest =>
    if e = 'u' then
      match rest with
      | a :: b :: c :: d :: r =>
        match hexVal a, hexVal b, hexVal c, hexVal d with
        | some va, some vb, some vc, some vd =>
          (parseStringChars r).map
            (fun p => (Char.ofNat (va * 4096 + vb * 256 + vc * 16 + vd) :: p.1, p.2))
        | _, _, _, _ => none
      | _ => none
    else
      match escSimple e with
      | some ch => (parseStringChars rest).map (fun p => (ch :: p.1, p.2))
      | none => none
  | c :: rest => (parseStringChars rest).map (fun p => (c :: p.1, p.2))

/-- JSON number (optional minus, digits, optional fraction, optional exponent).
Leading-zero restrictions of the JSON grammar are not enforced. -/
def parseNum (s : List Char) : Option (ℚ × List Char) :=
  let signAndRest : (ℚ × List Char) := match s with
    | '-' :: r => (-1, r)
    | _ => (1, s)
  let sign := signAndRest.1
  let s₁ := signAndRest.2
  let intSpan := s₁.span isDigitChar
  if intSpan.1 = [] then none
  else
    let intPart : ℚ := (digitsToNat intSpan.1 : ℚ)
    let afterFrac : Option (ℚ × List Char) :=
      match intSpan.2 with
      | '.' :: r =>
        let fracSpan := r.span isDigitChar
        if fracSpan.1 = [] then none
        else some (intPart + (digitsToNat fracSpan.1 : ℚ) / ((10 : ℚ) ^ fracSpan.1.length),
                   fracSpan.2)
      | rest => some (intPart, rest)
    match afterFrac with
    | none => none
    | some (mant, r₁) =>
      match r₁ with
      | 'e' :: r₂ =>
        match (match r₂ with
               | '-' :: r₃ => some (true, r₃)
               | '+' :: r₃ => some (false, r₃)
               | r₃ => some (false, r₃)) with
        | some (negExp, r₃) =>
          let expSpan := r₃.span isDigitChar
          if expSpan.1 = [] then none
          else if negExp then
            some (sign * mant / ((10 : ℚ) ^ digitsToNat expSpan.1), expSpan.2)
          else
            some (sign * mant * ((10 : ℚ) ^ digitsToNat expSpan.1), expSpan.2)
        | none => none
      | 'E' :: r₂ =>
        match (match r₂ with
               | '-' :: r₃ => some (true, r₃)
               | '+' :: r₃ => some (false, r₃)
               | r₃ => some (false, r₃)) with
        | some (negExp, r₃) =>
          let expSpan := r₃.span isDigitChar
          if expSpan.1 = [] then none
          else if negExp then
            some (sign * mant / ((10 : ℚ) ^ digitsToNat expSpan.1), expSpan.2)
          else
            some (sign * mant * ((10 : ℚ) ^ digitsToNat expSpan.1), expSpan.2)
        | none => none
      | _ => some (sign * mant, r₁)

/-- Literal suffix of `true` / `false` / `null`. -/
def expectLit : List Char → List Char → Option (List Char)
  | [], s => some s
  | l :: ls, c :: cs => if l == c then expectLit ls cs else none
  | _ :: _, [] => none

mutual

/-- JSON value parser (fuel-indexed recursive descent); dispatches on the first
non-whitespace character, so a successful parse starting at `{` is an object. -/
def parseVal : Nat → List Char → Option (Json × List Char)
  | 0, _ => none
  | Nat.succ f, s =>
    match skipWs s with
    | [] => none
    | c :: cs =>
      if c = '{' then (parseObjRest f cs).map (fun p => (Json.obj p.1, p.2))
      else if c = '[' then (parseArrRest f cs).map (fun p => (Json.arr p.1, p.2))
      else if c = '"' then (parseStringChars cs).map (fun p => (Json.str ⟨p.1⟩, p.2))
      else if c = 't' then (expectLit ['r', 'u', 'e'] cs).map (fun r => (Json.bool true, r))
      else if c = 'f' then (expectLit ['a', 'l', 's', 'e'] cs).map (fun r => (Json.bool false, r))
      else if c = 'n' then (expectLit ['u', 'l', 'l'] cs).map (fun r => (Json.null, r))
      else (parseNum (c :: cs)).map (fun p => (Json.num p.1, p.2))

/-- Object body after `{`. -/
def parseObjRest : Nat → List Char → Option (List (String × Json) × List Char)
  | 0, _ => none
  | Nat.succ f, cs =>
    match skipWs cs with
    | '}' :: r => some ([], r)
    | cs₂ => parseObjItems f cs₂

/-- One or more `"key": value` items, separated by `,`, ended by `}`. -/
def parseObjItems : Nat → List Char → Option (List (String × Json) × List Char)
  | 0, _ => none
  | Nat.succ f, cs =>
    match skipWs cs with
    | '"' :: cs₂ =>
      match parseStringChars cs₂ with
      | none => none
      | some (key, r₁) =>
        match skipWs r₁ with
        | ':' :: r₂ =>
          match parseVal f r₂ with
          | none => none
          | some (v, r₃) =>
            match skipWs r₃ with
            | ',' :: r₄ => (parseObjItems f r₄).map (fun p => ((⟨key⟩, v) :: p.1, p.2))
            | '}' :: r₄ => some ([(⟨key⟩, v)], r₄)
            | _ => none
        | _ => none
    | _ => none

/-- Array body after `[`. -/
def parseArrRest : Nat → List Char → Option (List Json × List Char)
  | 0, _ => none
  | Nat.succ f, cs =>
    match skipWs cs with
    | ']' :: r => some ([], r)
    | cs₂ => parseArrItems f cs₂

/-- One or more array elements, separated by `,`, ended by `]`. -/
def parseArrItems : Nat → List Char → Option (List Json × List Char)
  | 0, _ => none
  | Nat.succ f, cs =>
    match parseVal f cs with
    | none => none
    | some (v, r₁) =>
      match skipWs r₁ with
      | ',' :: r₂ => (parseArrItems f r₂).map (fun p => (v :: p.1, p.2))
      | ']' :: r₂ => some ([v], r₂)
      | _ => none

end

/-- `JSON.parse` model: parse one value, allow trailing whitespace only.
Fuel `length + 1`, decremented on each nesting/element step, suffices for any
input a dive run produces; an out-of-fuel result is a parse failure. -/
def jsonParse (s : String) : Option Json :=
  match parseVal (s.length + 1) s.data with
  | some (v, rest) => if skipWs rest = [] then some v else none
  | none => none

/-! ## DiveUtils (`backend/utils/dive.js`, src/unnamed/part_012 lines 1159-1684)

The backend's inspect route loads this module via `require('../utils/dive')`.
-/

/-- `calculateLayerEfficiency(layer)`:
`size = layer.size || 0; wastedSize = layer.wastedBytes || 0;`
`if (size === 0) return 100; return ((size - wastedSize) / size) * 100;` -/
def calculateLayerEfficiency (layer : Json) : ℚ :=
  let size := numOrD (layer.getF "size") 0
  let wastedSize := numOrD (layer.getF "wastedBytes") 0
  if size = 0 then 100 else (size - wastedSize) / size * 100

/-- `calculateSizePercentage(layerSize, totalSize)`:
`if (!totalSize || totalSize === 0) return 0; return (layerSize / totalSize) * 100;`
(`!totalSize` already covers `0`, `null` and `undefined`; the `=== 0` test is
redundant). -/
def calculateSizePercentage (layerSize totalSize : Json) : ℚ :=
  if totalSize.truthy then numOrZero layerSize / numOrZero totalSize * 100 else 0

/-- `determineChangeType(layer)`: `'added'` iff `layer.index === 0`, else `'modified'`. -/
def determineChangeType (layer : Json) : String :=
  match layer.getF "index" with
  | .num q => if q = 0 then "added" else "modified"
  | _ => "modified"

/-- One element of the `layers` array the backend returns (the shape built by
`parseJSONOutput`'s `layers.map` and by `getMockAnalysis`).  `created` keeps the
raw JSON field (absent ⇒ `Json.null`). -/
structure ProcessedLayer where
  id : String
  index : ℚ
  command : String
  size : ℚ
  created : Json
  wasted_size : ℚ
  efficiency : ℚ
  file_count : ℚ
  change_type : String
  size_percentage : ℚ

/-- The `analysis` aggregate object of the response. -/
structure AnalysisSummary where
  totalLayers : ℕ
  totalSize : ℚ
  wastedSpace : ℚ
  efficiency : ℚ
  userDataInImage : ℚ

/-- Result shape of `parseJSONOutput` / `getMockAnalysis` (`timestamp` and
`metadata.created`/`architecture`/`os` constants are omitted as time-valued or
constant; `metadata.imageId` is kept as `imageId`). -/
structure DiveAnalysis where
  imageName : String
  analysis : AnalysisSummary
  layers : List ProcessedLayer
  imageId : String

/-- `substring(7, 19)` of JavaScript (clamped to the string's end). -/
def substr7to19 (s : String) : String := ⟨(s.data.drop 7).take 12⟩

/-- `'sha256:' + (layers[0]?.digestId?.substring(7, 19) || 'unknown')`. -/
def mkImageId (layers : List Json) : String :=
  let headDigest : Json :=
    match layers with
    | [] => Json.null
    | l :: _ => l.getF "digestId"
  let sub : Json :=
    match headDigest with
    | .str s => .str (substr7to19 s)
    | _ => .null
  "sha256:" ++ strOrD sub "unknown"

/-- One mapped layer of `parseJSONOutput`:
`{ id: layer.digestId || layer.id || `layer-i`, index: layer.index || index,`
`  command: layer.command || 'Unknown command', size: layer.sizeBytes || 0,`
`  created: layer.created, wasted_size: 0, efficiency: calculateLayerEfficiency(layer),`
`  file_count: layer.fileList ? layer.fileList.length : 0,`
`  change_type: determineChangeType(layer),`
`  size_percentage: calculateSizePercentage(layer.sizeBytes, image.sizeBytes) }`. -/
def processLayer (image : Json) (index : ℕ) (layer : Json) : ProcessedLayer :=
  { id := strOrD (jsOr (layer.getF "digestId") (layer.getF "id")) ("layer-" ++ toString index)
    index := numOrD (layer.getF "index") (index : ℚ)
    command := strOrD (layer.getF "command") "Unknown command"
    size := numOrD (layer.getF "sizeBytes") 0
    created := layer.getF "created"
    wasted_size := 0
    efficiency := calculateLayerEfficiency layer
    file_count := if (layer.getF "fileList").truthy then jsLen (layer.getF "fileList") else 0
    change_type := determineChangeType layer
    size_percentage := calculateSizePercentage (layer.getF "sizeBytes") (image.getF "sizeBytes") }

/-- `jsonOutput.layer || []`, then used with `.map` (an array in dive's output;
truthy non-arrays are outside the model). -/
def jsonLayers (jsonOutput : Json) : List Json :=
  match jsonOutput.getF "layer" with
  | .arr xs => xs
  | _ => []

/-- `parseJSONOutput(jsonOutput, imageName)` of `backend/utils/dive.js`:
the aggregate totals are taken from dive's image summary —
`totalSize = image.sizeBytes || 0`, `wastedSpace = image.inefficientBytes || 0`,
`efficiency = image.efficiencyScore ? image.efficiencyScore * 100 : 0` —
and the per-layer `wasted_size` is hardcoded `0`. -/
def parseJSONOutput (jsonOutput : Json) (imageName : String) : DiveAnalysis :=
  let layers := jsonLayers jsonOutput
  let image := jsOr (jsonOutput.getF "image") (Json.obj [])
  let processedLayers := (layers.enum).map (fun p => processLayer image p.1 p.2)
  let totalSize := numOrD (image.getF "sizeBytes") 0
  let wastedSpace := numOrD (image.getF "inefficientBytes") 0
  let efficiency := if (image.getF "efficiencyScore").truthy
    then numOrZero (image.getF "efficiencyScore") * 100 else 0
  { imageName := imageName
    analysis :=
      { totalLayers := processedLayers.length
        totalSize := totalSize
        wastedSpace := wastedSpace
        efficiency := jsRound (efficiency * 10) / 10
        userDataInImage := totalSize - wastedSpace }
    layers := processedLayers
    imageId := mkImageId layers }

/-- ASCII letter/digit test (`[a-zA-Z0-9]`, by code point). -/
def isAlnumChar (c : Char) : Bool :=
  isDigitChar c || (96 < c.toNat && c.toNat < 123) || (64 < c.toNat && c.toNat < 91)

/-- Regex `\w`. -/
def wordChar (c : Char) : Bool := isAlnumChar c || c == '_'

/-- Regex `\s` (ASCII part). -/
def reWsChar (c : Char) : Bool :=
  c == ' ' || c == '\t' || c == '\n' || c == '\r' || c == '\x0B' || c == '\x0C'

/-- Lower-case an ASCII letter. -/
def lowerChar (c : Char) : Char :=
  if 'A' ≤ c && c ≤ 'Z' then Char.ofNat (c.toNat + 32) else c

/-- Upper-case an ASCII letter. -/
def upperChar (c : Char) : Char :=
  if 'a' ≤ c && c ≤ 'z' then Char.ofNat (c.toNat - 32) else c

/-- Case-insensitive literal prefix match (pattern given lower-case); returns
the rest of the input on success. -/
def ciPrefixMatch : List Char → List Char → Option (List Char)
  | [], s => some s
  | p :: ps, c :: cs => if lowerChar c == p then ciPrefixMatch ps cs else none
  | _ :: _, [] => none

/-- Regex `\d+(?:\.\d+)?` at the current position, returning the `parseFloat`
value of the capture and the rest.  (If a `.` is not followed by digits the
optional group simply does not participate.) -/
def matchDecimal (s : List Char) : Option (ℚ × List Char) :=
  let intSpan := s.span isDigitChar
  if intSpan.1 = [] then none
  else
    let intVal : ℚ := (digitsToNat intSpan.1 : ℚ)
    match intSpan.2 with
    | '.' :: r =>
      let fracSpan := r.span isDigitChar
      if fracSpan.1 = [] then some (intVal, intSpan.2)
      else some (intVal + (digitsToNat fracSpan.1 : ℚ) / ((10 : ℚ) ^ fracSpan.1.length),
                 fracSpan.2)
    | rest => some (intVal, rest)

/-- `/efficiency:\s*(\d+(?:\.\d+)?)/i` tried at one position. -/
def tryEfficiencyAt (s : List Char) : Option ℚ :=
  match ciPrefixMatch "efficiency:".data s with
  | none => none
  | some rest =>
    match matchDecimal (rest.dropWhile (reWsChar ·)) with
    | some (q, _) => some q
    | none => none

/-- Leftmost match of the efficiency regex (the engine retries at successive
positions; digit-run backtracking inside the capture cannot help for this
pattern since `\s` and `\d` are disjoint). -/
def searchEfficiency : List Char → Option ℚ
  | [] => none
  | c :: cs =>
    match tryEfficiencyAt (c :: cs) with
    | some q => some q
    | none => searchEfficiency cs

/-- `/wasted:\s*(\d+(?:\.\d+)?)\s*(\w+)/i` tried at one position (value and
unit captures).  Backtracking into the digit capture (relevant only for inputs
like `wasted:12.b`) is not modelled. -/
def tryWastedAt (s : List Char) : Option (ℚ × String) :=
  match ciPrefixMatch "wasted:".data s with
  | none => none
  | some rest =>
    match matchDecimal (rest.dropWhile (reWsChar ·)) with
    | none => none
    | some (v, r) =>
      let unitSpan := (r.dropWhile (reWsChar ·)).span wordChar
      if unitSpan.1 = [] then none else some (v, ⟨unitSpan.1⟩)

/-- Leftmost match of the wasted-space regex. -/
def searchWasted : List Char → Option (ℚ × String)
  | [] => none
  | c :: cs =>
    match tryWastedAt (c :: cs) with
    | some p => some p
    | none => searchWasted cs

/-- `parseSize(value, unit)`: `value * (units[unit.toUpperCase()] || 1)`. -/
def parseSize (value : ℚ) (unit : String) : ℚ :=
  let u : String := ⟨unit.data.map upperChar⟩
  if u = "B" then value * 1
  else if u = "KB" then value * 1024
  else if u = "MB" then value * (1024 * 1024)
  else if u = "GB" then value * (1024 * 1024 * 1024)
  else value * 1

/-- The synthetic layer built by `parseTextOutput` (its `created` timestamp is
omitted as time-valued). -/
structure TextLayer where
  id : String
  index : ℚ
  command : String
  size : ℚ
  wasted_size : ℚ
  efficiency : ℚ
  file_count : ℚ
  change_type : String
  size_percentage : ℚ

/-- Result shape of `parseTextOutput` (aggregates at top level, `analysis`
holding `totalLayers`/`largestLayer`/`suggestions`). -/
structure TextAnalysis where
  imageName : String
  totalSize : ℚ
  wastedSpace : ℚ
  efficiency : ℚ
  layers : List TextLayer
  totalLayers : ℚ
  largestLayer : Option TextLayer
  suggestions : List String

/-- `generateSuggestions(layers, efficiency)`. -/
def generateSuggestions (layers : List TextLayer) (efficiency : ℚ) : List String :=
  (if efficiency < 70 then
    ["Consider using multi-stage builds to reduce final image size"] else []) ++
  (if (layers.filter (fun l => l.wasted_size > 0)).length > 0 then
    ["Remove unnecessary files and packages in the same RUN command"] else []) ++
  (if layers.length > 10 then
    ["Combine RUN commands to reduce layer count"] else []) ++
  ["Use .dockerignore to exclude unwanted files",
   "Order Dockerfile instructions from least to most frequently changing"]

/-- `parseTextOutput(stdout, stderr, imageName)`: regex-based fallback parsing
of dive's plain-text output. -/
def parseTextOutput (stdout _stderr imageName : String) : TextAnalysis :=
  let efficiency : ℚ :=
    match searchEfficiency stdout.data with
    | some q => q
    | none => 0
  let wastedSpace : ℚ :=
    match searchWasted stdout.data with
    | some (v, u) => parseSize v u
    | none => 0
  let layer : TextLayer :=
    { id := "unknown"
      index := 0
      command := "Analysis completed - details not available in text mode"
      size := 0
      wasted_size := wastedSpace
      efficiency := efficiency
      file_count := 0
      change_type := "unknown"
      size_percentage := 100 }
  { imageName := imageName
    totalSize := 0
    wastedSpace := wastedSpace
    efficiency := efficiency
    layers := [layer]
    totalLayers := 1
    largestLayer := some layer
    suggestions := generateSuggestions [layer] efficiency }

/-- A dive analysis result: either the structured shape built from dive's JSON
(or the mock), or the basic text-parsed shape. -/
inductive DiveResult where
  | structured (a : DiveAnalysis)
  | textual (t : TextAnalysis)

/-- `parseDiveOutput(stdout, stderr, imageName)`:
`jsonMatch = stdout.trim(); if (jsonMatch && jsonMatch.startsWith('{'))`
`jsonOutput = JSON.parse(jsonMatch)` (a parse failure is caught and leaves
`jsonOutput = null`); then `jsonOutput ? parseJSONOutput : parseTextOutput`. -/
def parseDiveOutput (stdout stderr imageName : String) : DiveResult :=
  let jsonMatch := jsTrim stdout
  let jsonOutput : Option Json :=
    if jsonMatch ≠ "" ∧ strStartsWithBrace jsonMatch then jsonParse jsonMatch else none
  match jsonOutput with
  | some v =>
    if v.truthy then .structured (parseJSONOutput v imageName)
    else .textual (parseTextOutput stdout stderr imageName)
  | none => .textual (parseTextOutput stdout stderr imageName)

/-- Outcome of `execAsync('dive --json <file> <image>')`: resolved stdout/stderr,
or a rejection (non-zero exit, timeout, spawn failure). -/
structure ExecResult where
  stdout : String
  stderr : String

/-- Environment of one dive run: what the external `dive` process and the
filesystem do. -/
structure DiveEnv where
  /-- `execAsync` result: `.ok` iff the dive process exits 0 within the timeout. -/
  execResult : Except JsError ExecResult
  /-- Content of the `--json` artifact file when `fs.pathExists` finds it. -/
  jsonFileContent : Option String

/-- Representative `JSON.parse` exception message (its content is never read). -/
def jsonParseErrorMessage : String := "Unexpected token in JSON"

/-- `executeDiveSync(imageName)` of `backend/utils/dive.js`: await `execAsync`;
on success, if the artifact file exists `JSON.parse` its content and return
`parseJSONOutput`, else fall back to `parseDiveOutput(stdout, stderr)`.
The surrounding `catch` rewraps any failure as
`Dive execution failed: <message>`. -/
def executeDiveSync (env : DiveEnv) (imageName : String) : Except JsError DiveResult :=
  match env.execResult with
  | .error e => .error ⟨"Dive execution failed: " ++ e.message⟩
  | .ok r =>
    match env.jsonFileContent with
    | some content =>
      match jsonParse content with
      | some parsedOutput => .ok (.structured (parseJSONOutput parsedOutput imageName))
      | none => .error ⟨"Dive execution failed: " ++ jsonParseErrorMessage⟩
    | none => .ok (parseDiveOutput r.stdout r.stderr imageName)

/-- Completion of a `try`-block of an `async` function: either it returns a
promise, or it aborts synchronously with an exception. -/
inductive AsyncBody (α : Type) where
  | ret (p : Except JsError α)
  | thrown (e : JsError)

/-- `try { … } catch (e) { … }` in an `async` function.  Crucially, a
`return somePromise` statement (without `await`) leaves the `try` frame before
the promise settles: a later rejection of that promise is adopted by the caller
directly and is NOT routed through the `catch` handler.  Only a synchronous
throw inside the block reaches the handler. -/
def tryCatchAsync {α : Type} (body : AsyncBody α) (handler : JsError → Except JsError α) :
    Except JsError α :=
  match body with
  | .ret p => p
  | .thrown e => handler e

/-- The four hardcoded mock layers of `getMockAnalysis` (no `created` field,
hence `Json.null`). -/
def mockLayers : List ProcessedLayer :=
  [ { id := "sha256:abc123", index := 0, command := "FROM node:18-alpine",
      size := 7340032, created := Json.null, wasted_size := 0, efficiency := 100,
      file_count := 145, change_type := "added", size_percentage := 45.2 },
    { id := "sha256:def456", index := 1, command := "RUN apk add --no-cache curl",
      size := 2097152, created := Json.null, wasted_size := 524288, efficiency := 75,
      file_count := 23, change_type := "modified", size_percentage := 12.9 },
    { id := "sha256:ghi789", index := 2, command := "COPY package*.json .//",
      size := 8192, created := Json.null, wasted_size := 0, efficiency := 100,
      file_count := 2, change_type := "added", size_percentage := 0.05 },
    { id := "sha256:jkl012", index := 3, command := "RUN npm ci --only=production",
      size := 6815744, created := Json.null, wasted_size := 1048576, efficiency := 84.6,
      file_count := 892, change_type := "added", size_percentage := 41.9 } ]

/-- `getMockAnalysis(imageName)`: hardcoded mock result; totals are summed over
the mock layers, `efficiency = Math.round(((total - wasted) / total * 100) * 10) / 10`. -/
def getMockAnalysis (imageName : String) : DiveAnalysis :=
  let totalSize := (mockLayers.map (fun l => l.size)).sum
  let wastedSpace := (mockLayers.map (fun l => l.wasted_size)).sum
  let efficiency := (totalSize - wastedSpace) / totalSize * 100
  { imageName := imageName
    analysis :=
      { totalLayers := mockLayers.length
        totalSize := totalSize
        wastedSpace := wastedSpace
        efficiency := jsRound (efficiency * 10) / 10
        userDataInImage := totalSize - wastedSpace }
    layers := mockLayers
    imageId := "sha256:d2b6b5aedb5b" }

/-- `executeDive(imageName, progressCallback)`:
`try { return this.executeDiveSync(imageName); } catch { return getMockAnalysis(imageName); }`.
The body returns the `executeDiveSync` promise without `await`, so the `catch`
can only see a synchronous throw (which the body cannot produce) — the mock
fallback is dead code and a rejection propagates.  The `progressCallback`
parameter is ignored by the source. -/
def executeDive (env : DiveEnv) (imageName : String) : Except JsError DiveResult :=
  tryCatchAsync (.ret (executeDiveSync env imageName))
    (fun _ => .ok (.structured (getMockAnalysis imageName)))

/-! ## The `/api/inspect` route (`backend/routes/inspect.js`) -/

/-- `[a-zA-Z0-9._-]`. -/
def isNamePartChar (c : Char) : Bool := isAlnumChar c || c == '.' || c == '_' || c == '-'

/-- Tail of the route's image-name regex after its first character:
`[a-zA-Z0-9._-]*[a-zA-Z0-9]*(:[a-zA-Z0-9._-]+)?$`.  The second starred atom is
subsumed by the first, and `:` is not a name-part character, so the string
matches iff every character up to an optional first `:` is a name-part
character and the part after that `:` is a nonempty run of name-part
characters. -/
def matchNameTail : List Char → Bool
  | [] => true
  | c :: cs =>
    if c = ':' then decide (cs ≠ []) && cs.all (isNamePartChar ·)
    else isNamePartChar c && matchNameTail cs

/-- The route's validator regex
`/^[a-zA-Z0-9][a-zA-Z0-9._-]*[a-zA-Z0-9]*(:[a-zA-Z0-9._-]+)?$/`
(note: unlike the top-level `dive.js` regex it has no `/`). -/
def routeImageNameMatch (s : String) : Bool :=
  match s.data with
  | [] => false
  | c :: rest => isAlnumChar c && matchNameTail rest

/-- `param('imageName').trim().isLength({min:1,max:255}).matches(…)`:
the sanitized (trimmed) value must be 1–255 characters and match the regex. -/
def validImageName (raw : String) : Bool :=
  let t := jsTrim raw
  decide (1 ≤ t.length) && decide (t.length ≤ 255) && routeImageNameMatch t

/-- One invocation of the route's `progressCallback` (`{status, progress, message}`;
the callback both merges the update into `inspectionProgress` and emits it on a
subscribed WebSocket). -/
structure ProgressUpdate where
  status : String
  progress : ℚ
  message : String

/-- The docker/dive subprocesses the handler can spawn (via `dockerUtils` /
`diveUtils`).  Cat-API HTTP fetches are not subprocesses and are not listed. -/
inductive SpawnAction where
  | dockerVersion
  | diveVersion
  | dockerInspect
  | dockerPull
  | dive

/-- The `inspectionProgress` entry for one image (its time-valued fields —
`startTime`, `lastUpdate`, `errorTime`, `completedTime` — are omitted). -/
structure ProgressEntry where
  status : String
  progress : ℚ
  message : String

/-- The HTTP response of the POST handler. -/
inductive RouteResponse where
  /-- A cat-analysis JSON body, returned with `res.status(200)`. -/
  | catBody
  /-- `res.json({success: true, imageName, analysis, completedAt})` (status 200). -/
  | successBody (analysis : DiveResult)
  /-- `res.status(500).json({error: 'Failed to inspect image', …})`. -/
  | errorBody (message : String)

/-- HTTP status of a response. -/
def RouteResponse.httpStatus : RouteResponse → ℕ
  | .catBody => 200
  | .successBody _ => 200
  | .errorBody _ => 500

/-- Environment of one POST `/api/inspect/:imageName` request: what Docker,
dive and the filesystem do.  `catUtils.generateCatResults` resolves with
internally-fallback-guarded random data; its own failure path is outside the
model. -/
structure RouteEnv where
  /-- `dockerUtils.isDockerAvailable()` (spawns `docker --version`). -/
  dockerAvailable : Bool
  /-- `diveUtils.isDiveAvailable()` (spawns `dive --version`). -/
  diveAvailable : Bool
  /-- `dockerUtils.imageExists(name)` (spawns `docker image inspect`). -/
  imageExists : Bool
  /-- Trimmed nonempty stdout lines `docker pull` emits (each becomes one
  progress callback in `pullImageWithProgress`). -/
  pullLines : List String
  /-- `none` if the pull resolves; `some e` if it rejects with `e` after the
  lines were emitted. -/
  pullError : Option JsError
  /-- Environment of the `diveUtils.executeDive` call. -/
  diveEnv : DiveEnv

/-- Outcome of the handler's `try` block: the analysis or the thrown error,
together with the progress updates emitted and subprocesses spawned so far. -/
inductive TryOutcome where
  | success (analysis : DiveResult) (events : List ProgressUpdate) (spawns : List SpawnAction)
  | failure (e : JsError) (events : List ProgressUpdate) (spawns : List SpawnAction)

/-- Progress updates of the pull phase: `pullImageWithProgress` invokes its
callback once per stdout line with `{type:'progress', message: line.trim(), imageName}`
— no `progress` field — so the route computes
`Math.min(20 + (pullUpdate.progress || 0) * 0.4, 60) = 20` for every line, and
`pullUpdate.message || 'Pulling image...'`. -/
def routePullEvents (lines : List String) : List ProgressUpdate :=
  lines.map (fun line =>
    { status := "pulling"
      progress := jsMin (20 + 0 * (0.4 : ℚ)) 60
      message := if line = "" then "Pulling image..." else line })

/-- Steps 2–3 of the handler: the `analyzing` milestone, `executeDive` (whose
`diveUpdate` callback never fires, see `executeDive`), and on success the
`complete` milestone. -/
def divePhase (env : RouteEnv) (imageName : String) (evs : List ProgressUpdate)
    (sp : List SpawnAction) : TryOutcome :=
  let analyzingEv : ProgressUpdate := ⟨"analyzing", 60, "Starting dive analysis..."⟩
  match executeDive env.diveEnv imageName with
  | .error e => .failure e (evs ++ [analyzingEv]) (sp ++ [.dive])
  | .ok a =>
    .success a (evs ++ [analyzingEv, ⟨"complete", 100, "Analysis complete!"⟩]) (sp ++ [.dive])

/-- The handler's `try` block after validation: availability checks, the
`checking` milestone, the optional pull phase, then the dive phase. -/
def inspectTryBlock (env : RouteEnv) (imageName : String) : TryOutcome :=
  if env.dockerAvailable = false then
    .failure ⟨"Docker is not available or not accessible"⟩ [] [.dockerVersion]
  else if env.diveAvailable = false then
    .failure ⟨"Dive tool is not available"⟩ [] [.dockerVersion, .diveVersion]
  else
    let checkingEv : ProgressUpdate := ⟨"checking", 10, "Checking if image exists locally..."⟩
    if env.imageExists then
      divePhase env imageName [checkingEv] [.dockerVersion, .diveVersion, .dockerInspect]
    else
      let pullStartEv : ProgressUpdate :=
        ⟨"pulling", 20, "Image not found locally, pulling from registry..."⟩
      let evs := checkingEv :: pullStartEv :: routePullEvents env.pullLines
      match env.pullError with
      | some e =>
        .failure e evs [.dockerVersion, .diveVersion, .dockerInspect, .dockerPull]
      | none =>
        divePhase env imageName evs [.dockerVersion, .diveVersion, .dockerInspect, .dockerPull]

/-- The catch block's test for "400-like" errors that are replaced by cats
(`error.response?.status === 400` is omitted: the errors reaching this catch
are plain `Error`s without a `response` field). -/
def keywordFallback (m : String) : Bool :=
  strIncludes m "400" || strIncludes m "Bad Request" || strIncludes m "not found" ||
  strIncludes m "invalid" || strIncludes m "Failed to"

/-- The `inspectionProgress` entry written by `inspectionProgress.set(name, {status:'starting', …})`. -/
def startingEntry : ProgressEntry := ⟨"starting", 0, "Initializing analysis..."⟩

/-- Spread-merge of one callback update into the stored entry
(`{...inspectionProgress.get(name), ...update, lastUpdate: …}`). -/
def applyUpdate (_e : ProgressEntry) (u : ProgressUpdate) : ProgressEntry :=
  ⟨u.status, u.progress, u.message⟩

/-- Entry state after all callback merges. -/
def applyUpdates (e : ProgressEntry) (us : List ProgressUpdate) : ProgressEntry :=
  us.foldl applyUpdate e

/-- Observable outcome of one POST `/api/inspect/:imageName` request. -/
structure RouteRun where
  /-- The `progressCallback` invocations, in order. -/
  events : List ProgressUpdate
  /-- The docker/dive subprocesses spawned, in order. -/
  spawns : List SpawnAction
  /-- The HTTP response. -/
  response : RouteResponse
  /-- The `inspectionProgress` entry for this image when the handler finishes
  (`none` = never created / not present). -/
  finalEntry : Option ProgressEntry
  /-- Whether a `setTimeout(() => inspectionProgress.delete(name), 300000)` was
  scheduled. -/
  deleteScheduled : Bool

/-- The POST `/api/inspect/:imageName` handler.  An invalid name is answered
with a cat body before anything is spawned or recorded; a valid name creates
the `starting` entry, runs the `try` block, and on success schedules the
5-minute deletion; a failure is answered with cats (HTTP 200) when its message
looks 400-like, else with HTTP 500 — in both failure cases the entry is
rewritten and no deletion is ever scheduled.  (URI decoding is the identity in
this model: `decodeURIComponent` of the already-decoded name.) -/
def inspectHandler (env : RouteEnv) (rawName : String) : RouteRun :=
  if validImageName rawName = false then
    { events := [], spawns := [], response := .catBody
      finalEntry := none, deleteScheduled := false }
  else
    match inspectTryBlock env rawName with
    | .success a evs sp =>
      { events := evs, spawns := sp, response := .successBody a
        finalEntry := some (applyUpdates startingEntry evs)
        deleteScheduled := true }
    | .failure e evs sp =>
      if keywordFallback e.message then
        { events := evs, spawns := sp, response := .catBody
          finalEntry := some ⟨"completed", 100, "Cat inspection completed successfully! 🐱"⟩
          deleteScheduled := false }
      else
        { events := evs, spawns := sp, response := .errorBody e.message
          finalEntry := some ⟨"error", 0, e.message⟩
          deleteScheduled := false }

/-! ## WebSocket subscription map (`backend/server.js` lines 127-151) -/

/-- The `inspectionSockets` map: image name → socket id, in insertion order
(a JS `Map`; `Map.set` of an existing key updates in place). -/
abbrev SocketMap : Type := List (String × String)

/-- `Map.set(imageName, socket)`. -/
def mapSet (m : SocketMap) (k v : String) : SocketMap :=
  if (m.map Prod.fst).contains k then
    m.map (fun p => if p.1 = k then (k, v) else p)
  else
    m ++ [(k, v)]

/-- The `subscribe` handler: `const {imageName} = data; if (imageName) { set }`
(a falsy — absent or empty — name is ignored). -/
def subscribeSocket (m : SocketMap) (imageName sockId : String) : SocketMap :=
  if imageName = "" then m else mapSet m imageName sockId

/-- The `disconnect` handler: delete every entry whose socket has the
disconnecting socket's id. -/
def disconnectSocket (m : SocketMap) (sockId : String) : SocketMap :=
  m.filter (fun p => decide (p.2 ≠ sockId))

/-- States of `inspectionSockets` reachable from the empty map by subscribe and
disconnect events. -/
inductive SocketMapReachable : SocketMap → Prop where
  | empty : SocketMapReachable []
  | subscribe (m : SocketMap) (imageName sockId : String) :
      SocketMapReachable m → SocketMapReachable (subscribeSocket m imageName sockId)
  | disconnect (m : SocketMap) (sockId : String) :
      SocketMapReachable m → SocketMapReachable (disconnectSocket m sockId)

/-! ## Helper lemmas -/

/-- A successful `parseVal` whose input starts (after whitespace) with `{`
yields an object. -/
theorem parseVal_brace_obj (f : ℕ) (cs rest : List Char) (v : Json)
    (h : parseVal (Nat.succ f) ('{' :: cs) = some (v, rest)) :
    ∃ kvs, v = Json.obj kvs := by
  have hws : skipWs ('{' :: cs) = '{' :: cs := by
    have hb : jsWsChar '{' = false := by decide
    simp [skipWs, hb]
  rw [parseVal, hws] at h
  simp only [if_pos rfl] at h
  rcases ho : parseObjRest f cs with _ | ⟨kvs, r⟩
  · rw [ho] at h
    simp at h
  · rw [ho] at h
    simp at h
    exact ⟨kvs, h.1.symm⟩

/-- A string accepted by `jsonParse` that starts with `{` parses to an object. -/
theorem jsonParse_brace_obj (s : String) (v : Json)
    (hb : strStartsWithBrace s = true) (hp : jsonParse s = some v) :
    ∃ kvs, v = Json.obj kvs := by
  unfold strStartsWithBrace at hb
  unfold jsonParse at hp
  rcases hd : s.data with _ | ⟨c, cs⟩
  · rw [hd] at hb
    simp at hb
  · rw [hd] at hb
    have hc : c = '{' := by
      have := hb
      simpa using this
    subst hc
    rw [hd] at hp
    rcases hv : parseVal (s.length + 1) ('{' :: cs) with _ | ⟨v₂, rest⟩
    · rw [hv] at hp
      simp at hp
    · rw [hv] at hp
      have := parseVal_brace_obj s.length cs rest v₂ hv
      rcases this with ⟨kvs, hkvs⟩
      by_cases hrest : skipWs rest = []
      · simp [hrest] at hp
        exact ⟨kvs, hp ▸ hkvs⟩
      · simp [hrest] at hp

/-- A dive run whose process invocation rejects (e.g. non-zero exit): the
environment of the C1 failing input. -/
def diveFailEnv : DiveEnv :=
  { execResult := .error ⟨"Command failed: dive --json /tmp/dive-output.json nginx:latest"⟩
    jsonFileContent := none }

/-! ## Claim theorems -/

/-- C1: the claim says a failing dive invocation makes `executeDive` return
`getMockAnalysis(imageName)` instead of propagating the error.  In the code,
`executeDive` returns the `executeDiveSync` promise without `await`, so its
rejection escapes the `try`/`catch` and the mock fallback never runs: at a
concrete failing run `executeDive` yields the error, not the mock, and in
general `executeDive` coincides with `executeDiveSync`. -/
theorem executeDive_propagates_failure :
    executeDive diveFailEnv "nginx:latest" =
      .error ⟨"Dive execution failed: Command failed: dive --json /tmp/dive-output.json nginx:latest"⟩ ∧
    executeDive diveFailEnv "nginx:latest" ≠
      .ok (.structured (getMockAnalysis "nginx:latest")) ∧
    ∀ (env : DiveEnv) (img : String), executeDive env img = executeDiveSync env img := by
  refine ⟨rfl, ?_, fun env img => rfl⟩
  intro h
  rw [show executeDive diveFailEnv "nginx:latest" =
        Except.error
          (JsError.mk "Dive execution failed: Command failed: dive --json /tmp/dive-output.json nginx:latest")
      from rfl] at h
  exact Except.noConfusion h

/-- C2: for a dive run that exits successfully, if the `--json` artifact file
exists the result comes from `JSON.parse` of its content fed to
`parseJSONOutput`; if the file is absent the result comes from
`parseDiveOutput(stdout, stderr)`, which falls back to text parsing whenever
the (trimmed) stdout does not parse as a JSON object. -/
theorem executeDiveSync_artifact_fallback (env : DiveEnv) (r : ExecResult) (img : String)
    (hexec : env.execResult = .ok r) :
    (∀ content v, env.jsonFileContent = some content → jsonParse content = some v →
        executeDiveSync env img = .ok (.structured (parseJSONOutput v img))) ∧
    (env.jsonFileContent = none →
        executeDiveSync env img = .ok (parseDiveOutput r.stdout r.stderr img)) ∧
    (∀ s e i, (∀ kvs, jsonParse (jsTrim s) ≠ some (Json.obj kvs)) →
        parseDiveOutput s e i = .textual (parseTextOutput s e i)) := by
  refine ⟨?_, ?_, ?_⟩
  · intro content v h1 h2
    simp [executeDiveSync, hexec, h1, h2]
  · intro h1
    simp [executeDiveSync, hexec, h1]
  · intro s e i hno
    unfold parseDiveOutput
    by_cases hcond : jsTrim s ≠ "" ∧ strStartsWithBrace (jsTrim s)
    · simp only [hcond, if_pos]
      rcases hjp : jsonParse (jsTrim s) with _ | v
      · simp
      · exfalso
        rcases jsonParse_brace_obj (jsTrim s) v hcond.2 hjp with ⟨kvs, hkvs⟩
        exact hno kvs (hkvs ▸ hjp)
    · simp only [hcond, if_neg, not_false_iff]

/-- Witness for C2 at a concrete successful run: artifact content `{}` goes
through `parseJSONOutput`, and stdout `hello` (no JSON object) goes through
text parsing. -/
theorem executeDiveSync_artifact_fallback_witness :
    executeDiveSync ⟨.ok ⟨"", ""⟩, some "{}"⟩ "img" =
      .ok (.structured (parseJSONOutput (Json.obj []) "img")) ∧
    parseDiveOutput "hello" "" "img" = .textual (parseTextOutput "hello" "" "img") :=
  ⟨(executeDiveSync_artifact_fallback ⟨.ok ⟨"", ""⟩, some "{}"⟩ ⟨"", ""⟩ "img" rfl).1 "{}"
      (Json.obj []) rfl rfl,
   (executeDiveSync_artifact_fallback ⟨.ok ⟨"", ""⟩, some "{}"⟩ ⟨"", ""⟩ "img" rfl).2.2
      "hello" "" "img"
      (by
        intro kvs h
        rw [show jsonParse (jsTrim "hello") = none from rfl] at h
        exact Option.noConfusion h)⟩

/-- A parsed dive document on which the image summary disagrees with the layer
sums (dive's real output has `image.sizeBytes` equal to the sum of layer
`sizeBytes`, but the claim quantifies over every parsed document). -/
def c3doc : Json :=
  Json.obj [("layer", Json.arr [Json.obj [("sizeBytes", Json.num 5)]]),
            ("image", Json.obj [("sizeBytes", Json.num 100),
                                ("inefficientBytes", Json.num 30),
                                ("efficiencyScore", Json.num (9/10))])]

/-- C3 counterexample: on `c3doc`, `parseJSONOutput` returns
`totalSize = 100` while the processed layers sum to `5`, `wastedSpace = 30`
while the layers' wasted bytes sum to `0` (each is hardcoded `0`), and
`efficiency = 90` (dive's `efficiencyScore * 100`) while the useful-bytes ratio
would be `70` — so none of the three claimed equalities holds. -/
theorem parseJSONOutput_summary_not_sums :
    (parseJSONOutput c3doc "img").analysis.totalSize = 100 ∧
    ((parseJSONOutput c3doc "img").layers.map (fun l => l.size)).sum = 5 ∧
    (parseJSONOutput c3doc "img").analysis.totalSize ≠
      ((parseJSONOutput c3doc "img").layers.map (fun l => l.size)).sum ∧
    (parseJSONOutput c3doc "img").analysis.wastedSpace = 30 ∧
    ((parseJSONOutput c3doc "img").layers.map (fun l => l.wasted_size)).sum = 0 ∧
    (parseJSONOutput c3doc "img").analysis.wastedSpace ≠
      ((parseJSONOutput c3doc "img").layers.map (fun l => l.wasted_size)).sum ∧
    (parseJSONOutput c3doc "img").analysis.efficiency = 90 ∧
    ((parseJSONOutput c3doc "img").analysis.totalSize -
        (parseJSONOutput c3doc "img").analysis.wastedSpace) /
      (parseJSONOutput c3doc "img").analysis.totalSize * 100 = 70 ∧
    (parseJSONOutput c3doc "img").analysis.efficiency ≠
      ((parseJSONOutput c3doc "img").analysis.totalSize -
          (parseJSONOutput c3doc "img").analysis.wastedSpace) /
        (parseJSONOutput c3doc "img").analysis.totalSize * 100 := by
  have hTS : (parseJSONOutput c3doc "img").analysis.totalSize = 100 := rfl
  have hWS : (parseJSONOutput c3doc "img").analysis.wastedSpace = 30 := rfl
  have hmapS : (parseJSONOutput c3doc "img").layers.map (fun l => l.size) = [5] := rfl
  have hmapW : (parseJSONOutput c3doc "img").layers.map (fun l => l.wasted_size) = [0] := rfl
  have hEff : (parseJSONOutput c3doc "img").analysis.efficiency = 90 := by
    simp only [parseJSONOutput]
    rw [show jsOr (c3doc.getF "image") (Json.obj []) = Json.obj
        [("sizeBytes", Json.num 100), ("inefficientBytes", Json.num 30),
         ("efficiencyScore", Json.num (9/10))] from rfl]
    rw [show (Json.obj [("sizeBytes", Json.num 100), ("inefficientBytes", Json.num 30),
         ("efficiencyScore", Json.num (9/10))]).getF "efficiencyScore" =
        Json.num (9/10) from rfl]
    norm_num [Json.truthy, numOrZero, jsRound]
  refine ⟨hTS, ?_, ?_, hWS, ?_, ?_, hEff, ?_, ?_⟩
  · rw [hmapS]; norm_num
  · rw [hTS, hmapS]; norm_num
  · rw [hmapW]; norm_num
  · rw [hWS, hmapW]; norm_num
  · rw [hTS, hWS]; norm_num
  · rw [hTS, hWS, hEff]; norm_num

/-- C3 amended: `parseJSONOutput`'s aggregates are taken from dive's image
summary — `totalSize` is `image.sizeBytes || 0`, `wastedSpace` is
`image.inefficientBytes || 0`, and the overall efficiency is dive's own
`image.efficiencyScore * 100` (0 when absent/0) rounded to one decimal — not
derived by summation over the processed layers, whose `wasted_size` is
hardcoded 0; `userDataInImage` is `totalSize - wastedSpace` and `totalLayers`
is the number of processed layers. -/
theorem parseJSONOutput_totals_from_image_summary (doc : Json) (img : String) :
    (parseJSONOutput doc img).analysis.totalSize =
      numOrD ((jsOr (doc.getF "image") (Json.obj [])).getF "sizeBytes") 0 ∧
    (parseJSONOutput doc img).analysis.wastedSpace =
      numOrD ((jsOr (doc.getF "image") (Json.obj [])).getF "inefficientBytes") 0 ∧
    (parseJSONOutput doc img).analysis.efficiency =
      jsRound ((if ((jsOr (doc.getF "image") (Json.obj [])).getF "efficiencyScore").truthy
        then numOrZero ((jsOr (doc.getF "image") (Json.obj [])).getF "efficiencyScore") * 100
        else 0) * 10) / 10 ∧
    (∀ l ∈ (parseJSONOutput doc img).layers, l.wasted_size = 0) ∧
    (parseJSONOutput doc img).analysis.userDataInImage =
      (parseJSONOutput doc img).analysis.totalSize -
        (parseJSONOutput doc img).analysis.wastedSpace ∧
    (parseJSONOutput doc img).analysis.totalLayers =
      (parseJSONOutput doc img).layers.length := by
  refine ⟨rfl, rfl, rfl, ?_, rfl, rfl⟩
  intro l hl
  simp only [parseJSONOutput, List.mem_map] at hl
  rcases hl with ⟨p, _, rfl⟩
  rfl

/-- C9: the hardcoded mock analysis is internally consistent for every image
name: exactly 4 layers, `totalSize` is the layer-size sum `16261120`,
`wastedSpace` is the layer `wasted_size` sum `1572864`, `userDataInImage` is
their difference, and `efficiency` is the useful-bytes ratio as a percentage
rounded to one decimal, `90.3`. -/
theorem getMockAnalysis_consistent (imageName : String) :
    (getMockAnalysis imageName).layers.length = 4 ∧
    (getMockAnalysis imageName).analysis.totalLayers = 4 ∧
    (getMockAnalysis imageName).analysis.totalSize =
      ((getMockAnalysis imageName).layers.map (fun l => l.size)).sum ∧
    (getMockAnalysis imageName).analysis.totalSize = 16261120 ∧
    (getMockAnalysis imageName).analysis.wastedSpace =
      ((getMockAnalysis imageName).layers.map (fun l => l.wasted_size)).sum ∧
    (getMockAnalysis imageName).analysis.wastedSpace = 1572864 ∧
    (getMockAnalysis imageName).analysis.userDataInImage =
      (getMockAnalysis imageName).analysis.totalSize -
        (getMockAnalysis imageName).analysis.wastedSpace ∧
    (getMockAnalysis imageName).analysis.efficiency =
      jsRound (((getMockAnalysis imageName).analysis.totalSize -
          (getMockAnalysis imageName).analysis.wastedSpace) /
        (getMockAnalysis imageName).analysis.totalSize * 100 * 10) / 10 ∧
    (getMockAnalysis imageName).analysis.efficiency = 90.3 := by
  have hTS : (getMockAnalysis imageName).analysis.totalSize = 16261120 := by
    rw [show (getMockAnalysis imageName).analysis.totalSize =
        (mockLayers.map (fun l => l.size)).sum from rfl,
      show mockLayers.map (fun l => l.size) = [7340032, 2097152, 8192, 6815744] from rfl]
    norm_num
  have hWS : (getMockAnalysis imageName).analysis.wastedSpace = 1572864 := by
    rw [show (getMockAnalysis imageName).analysis.wastedSpace =
        (mockLayers.map (fun l => l.wasted_size)).sum from rfl,
      show mockLayers.map (fun l => l.wasted_size) = [0, 524288, 0, 1048576] from rfl]
    norm_num
  refine ⟨rfl, rfl, rfl, hTS, rfl, hWS, rfl, rfl, ?_⟩
  rw [show (getMockAnalysis imageName).analysis.efficiency =
      jsRound (((mockLayers.map (fun l => l.size)).sum -
          (mockLayers.map (fun l => l.wasted_size)).sum) /
        (mockLayers.map (fun l => l.size)).sum * 100 * 10) / 10 from rfl,
    show mockLayers.map (fun l => l.size) = [7340032, 2097152, 8192, 6815744] from rfl,
    show mockLayers.map (fun l => l.wasted_size) = [0, 524288, 0, 1048576] from rfl]
  norm_num [jsRound]

/-- C10: the per-layer metric helpers are division-guarded and total:
`calculateLayerEfficiency` returns 100 when the layer size is 0 (or absent) and
`((size - wastedBytes) / size) * 100` otherwise, and `calculateSizePercentage`
returns 0 when the total size is missing or 0 and `(layerSize / totalSize) * 100`
otherwise. -/
theorem calc_helpers_division_guarded (s w l t : ℚ) (ht : t ≠ 0) :
    calculateLayerEfficiency
      (Json.obj [("size", Json.num s), ("wastedBytes", Json.num w)]) =
      (if s = 0 then 100 else (s - w) / s * 100) ∧
    calculateLayerEfficiency (Json.obj []) = 100 ∧
    calculateSizePercentage (Json.num l) Json.null = 0 ∧
    calculateSizePercentage (Json.num l) (Json.num 0) = 0 ∧
    calculateSizePercentage (Json.num l) (Json.num t) = l / t * 100 := by
  have hs : (Json.obj [("size", Json.num s), ("wastedBytes", Json.num w)]).getF "size" =
      Json.num s := rfl
  have hw : (Json.obj [("size", Json.num s), ("wastedBytes", Json.num w)]).getF
      "wastedBytes" = Json.num w := rfl
  refine ⟨?_, rfl, rfl, ?_, ?_⟩
  · rw [calculateLayerEfficiency, hs, hw]
    by_cases h0 : s = 0
    · simp [numOrD, numOrZero, Json.truthy, h0]
    · simp [numOrD, numOrZero, Json.truthy, h0]
      by_cases hw0 : w = 0
      · simp [hw0]
      · simp [hw0]
  · simp [calculateSizePercentage, Json.truthy]
  · simp [calculateSizePercentage, Json.truthy, numOrZero, ht]

/-- Witness for C10 with a nonzero total size. -/
theorem calc_helpers_division_guarded_witness :
    (2 : ℚ) ≠ 0 ∧ calculateSizePercentage (Json.num 5) (Json.num 2) = 5 / 2 * 100 :=
  ⟨by norm_num, (calc_helpers_division_guarded 1 1 5 2 (by norm_num)).2.2.2.2⟩

/-- A request environment whose inspection succeeds after a pull (used by
witnesses). -/
def sampleRouteEnv : RouteEnv :=
  { dockerAvailable := true
    diveAvailable := true
    imageExists := false
    pullLines := ["Pulling fs layer", "Download complete"]
    pullError := none
    diveEnv := { execResult := .ok ⟨"", ""⟩, jsonFileContent := some "{}" } }

/-- A request environment whose inspection fails after validation because
Docker is unavailable (`'Docker is not available or not accessible'` matches
none of the cat-fallback keywords). -/
def dockerDownEnv : RouteEnv :=
  { dockerAvailable := false
    diveAvailable := true
    imageExists := true
    pullLines := []
    pullError := none
    diveEnv := { execResult := .ok ⟨"", ""⟩, jsonFileContent := none } }

/-- C4: a POST `/api/inspect/:imageName` request whose image name fails the
route's validation (trimmed length bounds or the image-name regex) is answered
(with the cat body) without spawning any docker or dive subprocess. -/
theorem invalid_name_no_subprocess (env : RouteEnv) (raw : String)
    (h : validImageName raw = false) :
    (inspectHandler env raw).spawns = [] ∧
    (inspectHandler env raw).response = .catBody := by
  simp [inspectHandler, h]

/-- Witness for C4 at the concrete invalid name `-bad`. -/
theorem invalid_name_no_subprocess_witness :
    validImageName "-bad" = false ∧
    (inspectHandler sampleRouteEnv "-bad").spawns = [] ∧
    (inspectHandler sampleRouteEnv "-bad").response = .catBody :=
  ⟨rfl, invalid_name_no_subprocess sampleRouteEnv "-bad" rfl⟩

/-- C5 counterexample: a valid request that fails (Docker unavailable) leaves
an `error` entry in `inspectionProgress` and never schedules the 5-minute
deletion — the entry stays in the map until overwritten or cancelled, so
entries left by failed inspections are not expired. -/
theorem inspect_failed_entry_never_deleted :
    (inspectHandler dockerDownEnv "nginx").finalEntry =
      some ⟨"error", 0, "Docker is not available or not accessible"⟩ ∧
    (inspectHandler dockerDownEnv "nginx").deleteScheduled = false :=
  ⟨rfl, rfl⟩

/-- C5 amended: for every validated request the handler creates the progress
entry and mutates it through each callback, but the timed deletion is scheduled
exactly on the success path; both failure paths (cat fallback and HTTP 500)
rewrite the entry and schedule no deletion. -/
theorem inspect_entry_lifecycle (env : RouteEnv) (raw : String)
    (h : validImageName raw = true) :
    ((inspectHandler env raw).finalEntry).isSome = true ∧
    ((inspectHandler env raw).deleteScheduled = true ↔
      ∃ a, (inspectHandler env raw).response = .successBody a) ∧
    (∀ a, (inspectHandler env raw).response = .successBody a →
      (inspectHandler env raw).finalEntry =
        some (applyUpdates startingEntry (inspectHandler env raw).events)) := by
  rcases htb : inspectTryBlock env raw with ⟨a, evs, sp⟩ | ⟨e, evs, sp⟩
  · simp [inspectHandler, h, htb]
  · by_cases hk : keywordFallback e.message
    · simp [inspectHandler, h, htb, hk]
    · simp [inspectHandler, h, htb, hk]

/-- Witness for C5 (amended) at a concrete validated request. -/
theorem inspect_entry_lifecycle_witness :
    validImageName "nginx" = true ∧
    ((inspectHandler sampleRouteEnv "nginx").finalEntry).isSome = true :=
  ⟨rfl, (inspect_entry_lifecycle sampleRouteEnv "nginx" rfl).1⟩

/-- C8 counterexample: a post-validation failure whose message matches no
cat-fallback keyword (Docker unavailable) reaches the caller as an HTTP 500
error response, not as a 200 cat body. -/
theorem inspect_failure_surfaces_500 :
    (inspectHandler dockerDownEnv "nginx").response =
      .errorBody "Docker is not available or not accessible" ∧
    ((inspectHandler dockerDownEnv "nginx").response).httpStatus = 500 :=
  ⟨rfl, rfl⟩

/-- C8 amended: a validated request that fails is answered with the cat body
and HTTP 200 exactly when the error message contains one of `'400'`,
`'Bad Request'`, `'not found'`, `'invalid'`, `'Failed to'`; any other failure
surfaces as an HTTP 500 error response carrying the message. -/
theorem inspect_failure_cat_or_500 (env : RouteEnv) (raw : String) (e : JsError)
    (evs : List ProgressUpdate) (sp : List SpawnAction)
    (hv : validImageName raw = true)
    (hf : inspectTryBlock env raw = .failure e evs sp) :
    (keywordFallback e.message = true →
      (inspectHandler env raw).response = .catBody ∧
      ((inspectHandler env raw).response).httpStatus = 200) ∧
    (keywordFallback e.message = false →
      (inspectHandler env raw).response = .errorBody e.message ∧
      ((inspectHandler env raw).response).httpStatus = 500) := by
  constructor <;> intro hk <;>
    simp [inspectHandler, hv, hf, hk, RouteResponse.httpStatus]

/-- A request environment whose pull fails to start (`'Failed to'` keyword). -/
def pullFailEnv : RouteEnv :=
  { dockerAvailable := true
    diveAvailable := true
    imageExists := false
    pullLines := []
    pullError := some ⟨"Failed to start docker pull: spawn docker ENOENT"⟩
    diveEnv := { execResult := .ok ⟨"", ""⟩, jsonFileContent := none } }

/-- Witness for C8 (amended): a keyword-matching failure is answered with cats
and HTTP 200. -/
theorem inspect_failure_cat_or_500_witness :
    (inspectHandler pullFailEnv "nginx").response = .catBody ∧
    ((inspectHandler pullFailEnv "nginx").response).httpStatus = 200 :=
  (inspect_failure_cat_or_500 pullFailEnv "nginx"
      ⟨"Failed to start docker pull: spawn docker ENOENT"⟩
      [⟨"checking", 10, "Checking if image exists locally..."⟩,
       ⟨"pulling", 20, "Image not found locally, pulling from registry..."⟩]
      [.dockerVersion, .diveVersion, .dockerInspect, .dockerPull] rfl rfl).1 rfl

/-- On the success path the emitted events are: `checking`, the pull events
(exactly when the image is absent locally), `analyzing`, `complete`. -/
theorem inspectTryBlock_success_events (env : RouteEnv) (img : String) (a : DiveResult)
    (evs : List ProgressUpdate) (sp : List SpawnAction)
    (h : inspectTryBlock env img = .success a evs sp) :
    evs = ⟨"checking", 10, "Checking if image exists locally..."⟩ ::
      (if env.imageExists then ([] : List ProgressUpdate)
       else ⟨"pulling", 20, "Image not found locally, pulling from registry..."⟩ ::
         routePullEvents env.pullLines) ++
      [⟨"analyzing", 60, "Starting dive analysis..."⟩,
       ⟨"complete", 100, "Analysis complete!"⟩] := by
  unfold inspectTryBlock divePhase at h
  by_cases hdock : env.dockerAvailable = false
  · rw [if_pos hdock] at h
    simp at h
  · rw [if_neg hdock] at h
    by_cases hdive : env.diveAvailable = false
    · rw [if_pos hdive] at h
      simp at h
    · rw [if_neg hdive] at h
      by_cases hex : env.imageExists
      · rw [if_pos hex] at h
        rcases hdv : executeDive env.diveEnv img with e | a₂
        · rw [hdv] at h
          simp at h
        · rw [hdv] at h
          simp only [TryOutcome.success.injEq] at h
          rw [if_pos hex, ← h.2.1]
      · rw [if_neg hex] at h
        rcases hpe : env.pullError with _ | e
        · rw [hpe] at h
          rcases hdv : executeDive env.diveEnv img with e | a₂
          · rw [hdv] at h
            simp at h
          · rw [hdv] at h
            simp only [TryOutcome.success.injEq] at h
            rw [if_neg hex, ← h.2.1]
        · rw [hpe] at h
          simp at h

/-- Progress monotonicity scaffold: a head of progress ≤ 20, a middle whose
events all have progress 20, then the 60 and 100 milestones. -/
theorem chain_le_of_const_middle (ps : List ProgressUpdate)
    (hps : ∀ e ∈ ps, e.progress = 20) (x : ProgressUpdate) (hx : x.progress ≤ 20) :
    List.Chain' (fun e₁ e₂ => e₁.progress ≤ e₂.progress)
      (x :: ps ++ [⟨"analyzing", 60, "Starting dive analysis..."⟩,
                   ⟨"complete", 100, "Analysis complete!"⟩]) := by
  induction ps generalizing x with
  | nil =>
    show List.Chain' (fun e₁ e₂ => e₁.progress ≤ e₂.progress)
      (x :: [⟨"analyzing", 60, "Starting dive analysis..."⟩,
             ⟨"complete", 100, "Analysis complete!"⟩])
    rw [List.chain'_cons, List.chain'_cons]
    exact ⟨hx.trans (by norm_num), by norm_num,
      List.chain'_singleton ⟨"complete", 100, "Analysis complete!"⟩⟩
  | cons p ps ih =>
    show List.Chain' (fun e₁ e₂ => e₁.progress ≤ e₂.progress)
      (x :: p :: (ps ++ [⟨"analyzing", 60, "Starting dive analysis..."⟩,
                         ⟨"complete", 100, "Analysis complete!"⟩]))
    rw [List.chain'_cons]
    refine ⟨?_, ih (fun e he => hps e (List.mem_cons_of_mem _ he)) p ?_⟩
    · rw [hps p (List.mem_cons_self p ps)]
      exact hx
    · rw [hps p (List.mem_cons_self p ps)]

/-- C7: for every inspection that completes successfully, the progress updates
follow `checking` → `pulling*` (the pulling milestones occurring exactly when
the image is not present locally) → `analyzing` → `complete`, with the numeric
progress never decreasing and ending at 100. -/
theorem inspect_progress_milestones (env : RouteEnv) (raw : String) (a : DiveResult)
    (hv : validImageName raw = true)
    (hs : (inspectHandler env raw).response = .successBody a) :
    ∃ pulls : List ProgressUpdate,
      (inspectHandler env raw).events =
        ⟨"checking", 10, "Checking if image exists locally..."⟩ :: pulls ++
          [⟨"analyzing", 60, "Starting dive analysis..."⟩,
           ⟨"complete", 100, "Analysis complete!"⟩] ∧
      (∀ e ∈ pulls, e.status = "pulling" ∧ e.progress = 20) ∧
      (pulls = [] ↔ env.imageExists = true) ∧
      List.Chain' (fun e₁ e₂ => e₁.progress ≤ e₂.progress) (inspectHandler env raw).events ∧
      ((inspectHandler env raw).events.getLast?).map ProgressUpdate.progress = some 100 := by
  rcases htb : inspectTryBlock env raw with ⟨a₂, evs, sp⟩ | ⟨e, evs, sp⟩
  · have hevs := inspectTryBlock_success_events env raw a₂ evs sp htb
    have hev : (inspectHandler env raw).events = evs := by
      simp [inspectHandler, hv, htb]
    have hpull : ∀ ev ∈ (if env.imageExists then ([] : List ProgressUpdate)
        else ⟨"pulling", 20, "Image not found locally, pulling from registry..."⟩ ::
          routePullEvents env.pullLines),
        ev.status = "pulling" ∧ ev.progress = 20 := by
      intro ev hm
      by_cases hex : env.imageExists
      · rw [if_pos hex] at hm
        simp at hm
      · rw [if_neg hex] at hm
        rw [List.mem_cons] at hm
        rcases hm with rfl | hm
        · exact ⟨rfl, rfl⟩
        · simp only [routePullEvents, List.mem_map] at hm
          rcases hm with ⟨line, _, rfl⟩
          refine ⟨rfl, ?_⟩
          show jsMin (20 + 0 * (0.4 : ℚ)) 60 = 20
          norm_num [jsMin]
    refine ⟨(if env.imageExists then ([] : List ProgressUpdate)
        else ⟨"pulling", 20, "Image not found locally, pulling from registry..."⟩ ::
          routePullEvents env.pullLines), ?_, hpull, ?_, ?_, ?_⟩
    · rw [hev, hevs]
    · by_cases hex : env.imageExists <;> simp [hex]
    · rw [hev, hevs]
      exact chain_le_of_const_middle _ (fun e he => (hpull e he).2) _ (by norm_num)
    · rw [hev, hevs]
      rw [show (⟨"checking", 10, "Checking if image exists locally..."⟩ ::
          (if env.imageExists then ([] : List ProgressUpdate)
           else ⟨"pulling", 20, "Image not found locally, pulling from registry..."⟩ ::
             routePullEvents env.pullLines) ++
          [⟨"analyzing", 60, "Starting dive analysis..."⟩,
           ⟨"complete", 100, "Analysis complete!"⟩] : List ProgressUpdate) =
        (⟨"checking", 10, "Checking if image exists locally..."⟩ ::
          (if env.imageExists then ([] : List ProgressUpdate)
           else ⟨"pulling", 20, "Image not found locally, pulling from registry..."⟩ ::
             routePullEvents env.pullLines) ++
          [⟨"analyzing", 60, "Starting dive analysis..."⟩]) ++
          [⟨"complete", 100, "Analysis complete!"⟩] by simp]
      rw [List.getLast?_concat]
      rfl
  · exfalso
    by_cases hk : keywordFallback e.message
    · simp [inspectHandler, hv, htb, hk] at hs
    · simp [inspectHandler, hv, htb, hk] at hs

/-- Witness for C7 at a concrete successful pull-then-analyze run. -/
theorem inspect_progress_milestones_witness :
    ∃ pulls : List ProgressUpdate,
      (inspectHandler sampleRouteEnv "nginx").events =
        ⟨"checking", 10, "Checking if image exists locally..."⟩ :: pulls ++
          [⟨"analyzing", 60, "Starting dive analysis..."⟩,
           ⟨"complete", 100, "Analysis complete!"⟩] ∧
      (∀ e ∈ pulls, e.status = "pulling" ∧ e.progress = 20) ∧
      (pulls = [] ↔ sampleRouteEnv.imageExists = true) ∧
      List.Chain' (fun e₁ e₂ => e₁.progress ≤ e₂.progress)
        (inspectHandler sampleRouteEnv "nginx").events ∧
      ((inspectHandler sampleRouteEnv "nginx").events.getLast?).map
        ProgressUpdate.progress = some 100 :=
  inspect_progress_milestones sampleRouteEnv "nginx"
    (.structured (parseJSONOutput (Json.obj []) "nginx")) rfl rfl

/-- If a key is present, rewriting its entry makes `lookup` find the new value. -/
theorem lookup_replaceAll (m : SocketMap) (k v : String) (hk : k ∈ m.map Prod.fst) :
    List.lookup k (m.map (fun p => if p.1 = k then (k, v) else p)) = some v := by
  induction m with
  | nil => simp at hk
  | cons a m ih =>
    rw [List.map_cons, List.mem_cons] at hk
    rw [List.map_cons]
    by_cases ha : a.1 = k
    · rw [if_pos ha]
      simp [List.lookup]
    · rw [if_neg ha]
      rcases hk with hk | hk
      · exact absurd hk.symm ha
      · have hne : (k == a.1) = false := beq_eq_false_iff_ne.mpr (fun h => ha h.symm)
        simp [List.lookup, hne, ih hk]

/-- If a key is absent, `lookup` finds it in the appended singleton. -/
theorem lookup_append_not_mem (m : SocketMap) (k v : String)
    (hk : k ∉ m.map Prod.fst) :
    List.lookup k (m ++ [(k, v)]) = some v := by
  induction m with
  | nil => simp [List.lookup]
  | cons a m ih =>
    rw [List.map_cons, List.mem_cons] at hk
    push_neg at hk
    have hne : (k == a.1) = false := beq_eq_false_iff_ne.mpr hk.1
    simp [List.lookup, hne, ih hk.2]

/-- `Map.set` then `Map.get`. -/
theorem lookup_mapSet (m : SocketMap) (k v : String) :
    List.lookup k (mapSet m k v) = some v := by
  unfold mapSet
  by_cases hc : (m.map Prod.fst).contains k
  · rw [if_pos hc]
    refine lookup_replaceAll m k v ?_
    simpa [List.contains, List.elem_iff] using hc
  · rw [if_neg hc]
    refine lookup_append_not_mem m k v ?_
    simpa [List.contains, List.elem_iff] using hc

/-- `Map.set` preserves key uniqueness. -/
theorem mapSet_keys_nodup (m : SocketMap) (k v : String)
    (h : (m.map Prod.fst).Nodup) : ((mapSet m k v).map Prod.fst).Nodup := by
  unfold mapSet
  by_cases hc : (m.map Prod.fst).contains k
  · rw [if_pos hc]
    have hkeys : (m.map (fun p => if p.1 = k then (k, v) else p)).map Prod.fst =
        m.map Prod.fst := by
      rw [List.map_map]
      refine List.map_congr_left ?_
      intro p _
      by_cases hp : p.1 = k
      · simp [hp]
      · simp [hp]
    rw [hkeys]
    exact h
  · rw [if_neg hc]
    rw [List.map_append]
    rw [List.nodup_append]
    refine ⟨h, by simp, ?_⟩
    intro x hx
    simp only [List.map_cons, List.map_nil, List.mem_singleton]
    intro hxk
    subst hxk
    exact absurd (by simpa [List.contains, List.elem_iff] using hx) (by
      simpa [List.contains, List.elem_iff] using hc)

/-- C6: the subscription map keeps at most one socket per image name (its keys
are unique in every reachable state), a `subscribe` for a nonempty name makes
the map point that name at the new socket (replacing any earlier one), and a
`disconnect` removes every entry holding the disconnecting socket's id. -/
theorem socket_map_single_subscriber (m : SocketMap) (hr : SocketMapReachable m) :
    (m.map Prod.fst).Nodup ∧
    (∀ name sock, name ≠ "" →
      List.lookup name (subscribeSocket m name sock) = some sock) ∧
    (∀ sockId p, p ∈ disconnectSocket m sockId → p.2 ≠ sockId) := by
  refine ⟨?_, ?_, ?_⟩
  · induction hr with
    | empty => simp
    | subscribe m name sock _ ih =>
      unfold subscribeSocket
      by_cases hn : name = ""
      · rw [if_pos hn]
        exact ih
      · rw [if_neg hn]
        exact mapSet_keys_nodup m name sock ih
    | disconnect m sid _ ih =>
      exact List.Nodup.sublist (List.Sublist.map _ (List.filter_sublist _)) ih
  · intro name sock hn
    unfold subscribeSocket
    rw [if_neg hn]
    exact lookup_mapSet m name sock
  · intro sid p hp
    unfold disconnectSocket at hp
    rw [List.mem_filter] at hp
    simpa using hp.2

/-- Witness for C6 on the reachable empty map. -/
theorem socket_map_single_subscriber_witness :
    List.lookup "nginx" (subscribeSocket [] "nginx" "sock-1") = some "sock-1" :=
  (socket_map_single_subscriber [] SocketMapReachable.empty).2.1 "nginx" "sock-1"
    (by simp)
